import Mathlib

/-!
Shallow embedding of `src/server.js` (Abby e-commerce backend): the payment
initiate/verify handlers, the product POST/PUT handlers, and the feedback
list handler, together with proofs checking the specification's claims.

JavaScript request-body values are modelled by `JsVal` (undefined, null,
NaN, booleans, numbers, strings, arrays); only integer numbers occur in the
handlers, so numbers are `Int`.
-/

namespace Abby

/-- A JavaScript value as it can appear in a parsed request body or query.
Array elements are opaque line items (no handler ever inspects them),
modelled by their serialized form. -/
inductive JsVal where
  | jundef
  | jnull
  | jnan
  | jbool (b : Bool)
  | jnum (n : Int)
  | jstr (s : String)
  | jarr (elems : List String)
deriving DecidableEq

/-- JavaScript truthiness: `undefined`, `null`, `NaN`, `false`, `0` and `""`
are falsy; every other value (including the empty array) is truthy. -/
def truthy : JsVal → Bool
  | .jundef => false
  | .jnull => false
  | .jnan => false
  | .jbool b => b
  | .jnum n => n != 0
  | .jstr s => s != ""
  | .jarr _ => true

/-- Whitespace as stripped by JavaScript's string-to-number coercion. -/
def isWsChar (c : Char) : Bool :=
  c = ' ' || c = '\t' || c = '\n' || c = '\r'

/-- Strip leading and trailing whitespace from a character list. -/
def trimChars (l : List Char) : List Char :=
  ((l.dropWhile isWsChar).reverse.dropWhile isWsChar).reverse

/-- The value of a non-empty all-digit character list (`none` otherwise). -/
def digitsVal (l : List Char) : Option Nat :=
  if l = [] then none
  else if l.all Char.isDigit then
    some (l.foldl (fun a c => 10 * a + (c.toNat - 48)) 0)
  else none

/-- Parse a trimmed character list as a JavaScript integer literal with an
optional sign; the empty (all-whitespace) string coerces to 0. -/
def parseIntChars : List Char → Option Int
  | [] => some 0
  | '-' :: rest => (digitsVal rest).map (fun v => -(v : Int))
  | '+' :: rest => (digitsVal rest).map (fun v => (v : Int))
  | l => (digitsVal l).map (fun v => (v : Int))

/-- JavaScript `Number(v)` coercion on the integer fragment (`none` = NaN):
`Number(undefined)` and `Number(NaN)` are NaN, `Number(null) = 0`, booleans
map to 0/1, a string is trimmed and parsed as an integer literal (the empty
string giving 0), `Number([]) = 0`; the handlers never coerce non-empty
arrays, modelled as NaN. -/
def toNumber : JsVal → Option Int
  | .jundef => none
  | .jnull => some 0
  | .jnan => none
  | .jbool b => some (if b then 1 else 0)
  | .jnum n => some n
  | .jstr s => parseIntChars (trimChars s.data)
  | .jarr [] => some 0
  | .jarr (_ :: _) => none

/-- Outcome of a `fetch` call: `fail` is a transport error (the promise
rejects and control jumps to the handler's `catch` block), `ok` is a
received response body. -/
inductive Fetch (α : Type) where
  | fail
  | ok (resp : α)
deriving DecidableEq

/-! ### Payment verify handler (`POST /api/payment/verify`, lines 259-279) -/

/-- The `data` object inside a Paystack verify response. -/
structure GwData where
  status : JsVal
deriving DecidableEq

/-- A parsed Paystack verify response body: a call-level `status` field and
an optional `data` object (accessing `data.data.status` when `data.data` is
absent throws, landing in the `catch` block). -/
structure GwVerifyResp where
  status : JsVal
  data : Option GwData
deriving DecidableEq

/-- What the verify handler sends back to the caller. -/
inductive VerifyResponse where
  | error (code : Nat) (msg : String)
  | result (status message : String)
deriving DecidableEq

/-- The `POST /api/payment/verify` handler: rejects a falsy reference with
400, maps a transport error (or a thrown property access) through the
`catch` block to a 500 error body, and otherwise answers 200 with status
`success` exactly when `data.status && data.data.status === "success"`. -/
def verifyHandler (reference : JsVal) (gw : Fetch GwVerifyResp) : VerifyResponse :=
  if truthy reference = false then .error 400 "Reference required"
  else
    match gw with
    | .fail => .error 500 "Server error during verification"
    | .ok r =>
      if truthy r.status then
        match r.data with
        | none => .error 500 "Server error during verification"
        | some d =>
          if d.status = .jstr "success" then .result "success" "Payment verified"
          else .result "failed" "Payment verification failed"
      else .result "failed" "Payment verification failed"

/-! ### Payment initiate handler (`POST /api/payment/initiate`, lines 207-256) -/

/-- The destructured fields of the initiate request body (line 208). -/
structure InitBody where
  name : JsVal
  address : JsVal
  phone : JsVal
  bus : JsVal
  email : JsVal
  mode : JsVal
  cartItems : JsVal
  amount : JsVal
deriving DecidableEq

/-- The `metadata` block of the Paystack payload (lines 221-228). -/
structure PaystackMetadata where
  customer_name : JsVal
  phone : JsVal
  address : JsVal
  bus : JsVal
  mode : JsVal
  cartItems : JsVal
deriving DecidableEq

/-- The Paystack initialize payload (lines 216-229). -/
structure PaystackPayload where
  email : JsVal
  amount : JsVal
  currency : String
  reference : String
  metadata : PaystackMetadata
deriving DecidableEq

/-- Reference generation (line 214): `"abwy_" + Date.now()`, where `t` is
the millisecond timestamp returned by `Date.now()`. -/
def genReference (t : Nat) : String := "abwy_" ++ toString t

/-- The validation guard of line 210:
`!name || !address || !phone || !email || !cartItems || !amount` negated. -/
def initValidate (b : InitBody) : Bool :=
  truthy b.name && truthy b.address && truthy b.phone && truthy b.email &&
    truthy b.cartItems && truthy b.amount

/-- JavaScript `amount * 100`: numeric coercion of `amount`, times 100
(NaN when the coercion fails). -/
def jsMul100 (v : JsVal) : JsVal :=
  match toNumber v with
  | some n => .jnum (n * 100)
  | none => .jnan

/-- The `paystackPayload` object literal of lines 216-229. -/
def buildPaystackPayload (b : InitBody) (t : Nat) : PaystackPayload :=
  { email := b.email
    amount := jsMul100 b.amount
    currency := "NGN"
    reference := genReference t
    metadata :=
      { customer_name := b.name
        phone := b.phone
        address := b.address
        bus := b.bus
        mode := b.mode
        cartItems := b.cartItems } }

/-- The part of a Paystack initialize response the handler reads. -/
structure GwInitResp where
  status : JsVal
deriving DecidableEq

/-- What the initiate handler sends back to the caller. -/
inductive InitiateResponse where
  | error (code : Nat) (msg : String)
  | ok (reference publicKey : String)
deriving DecidableEq

/-- Observable outcome of one initiate call: the HTTP answer, whether the
gateway `fetch` was issued, and the payload it was issued with. -/
structure InitiateOutcome where
  response : InitiateResponse
  gatewayCalled : Bool
  payload : Option PaystackPayload
deriving DecidableEq

/-- The `POST /api/payment/initiate` handler: the truthiness validation of
line 210 (400, no gateway call, on failure), then the gateway call with the
built payload; a transport error 500s via `catch`, a falsy response
`status` 400s, otherwise the reference and public key are returned. -/
def initiateHandler (b : InitBody) (t : Nat) (publicKey : String)
    (gw : Fetch GwInitResp) : InitiateOutcome :=
  if initValidate b = false then
    { response := .error 400 "Missing required fields"
      gatewayCalled := false
      payload := none }
  else
    let p := buildPaystackPayload b t
    match gw with
    | .fail =>
      { response := .error 500 "Server error during payment initiation"
        gatewayCalled := true
        payload := some p }
    | .ok r =>
      if truthy r.status = false then
        { response := .error 400 "Paystack initialization failed"
          gatewayCalled := true
          payload := some p }
      else
        { response := .ok (genReference t) publicKey
          gatewayCalled := true
          payload := some p }

/-- The list of field values of a checkout request body, in declaration
order. -/
def checkoutFieldVals (b : InitBody) : List JsVal :=
  [b.name, b.address, b.phone, b.bus, b.email, b.mode, b.cartItems, b.amount]

/-- The list of field values of a payload metadata block. -/
def metadataFieldVals (m : PaystackMetadata) : List JsVal :=
  [m.customer_name, m.phone, m.address, m.bus, m.mode, m.cartItems]

/-! ### Product handlers (`POST /products` lines 85-114, `PUT /products/:id`
lines 117-151) -/

/-- A stored product document (schema of lines 42-50): `image` is the
uploaded file's URL, `stock` a number, `isOutOfStock` a boolean; the other
fields hold whatever the form supplied. -/
structure Product where
  name : JsVal
  category : JsVal
  price : JsVal
  desc : JsVal
  image : String
  stock : Int
  isOutOfStock : Bool
deriving DecidableEq

/-- The destructured multipart form fields of a product request (lines 87
and 119); an absent field is `jundef`. -/
structure ProductForm where
  name : JsVal
  category : JsVal
  price : JsVal
  desc : JsVal
  stock : JsVal
  isOutOfStock : JsVal
deriving DecidableEq

/-- What the product-create handler sends back. -/
inductive PostProductResult where
  | error (code : Nat) (msg : String)
  | created (p : Product)
deriving DecidableEq

/-- The `POST /products` handler (lines 85-114): 400 without an image file;
otherwise `parsedStock = Number(stock) || 0` and
`outStatus = (isOutOfStock === "true") || parsedStock === 0`, and the new
product is stored and echoed back. `file` is the uploaded file's path. -/
def postProductHandler (form : ProductForm) (file : Option String) : PostProductResult :=
  match file with
  | none => .error 400 "Image required"
  | some path =>
    let parsedStock : Int :=
      match toNumber form.stock with
      | none => 0
      | some n => n
    let outStatus : Bool := form.isOutOfStock = .jstr "true" || parsedStock = 0
    .created
      { name := form.name
        category := form.category
        price := form.price
        desc := form.desc
        image := path
        stock := parsedStock
        isOutOfStock := outStatus }

/-- The `updateData` object of lines 122-137 as it reaches
`findByIdAndUpdate`: `none` is an absent key (Mongoose strips keys whose
value is `undefined`, so an unsupplied `name`/`category`/`price`/`desc`
leaves the stored field alone); `stock` and `isOutOfStock` are set only
when `Number(stock)` is not NaN; `image` only when a file was uploaded. -/
structure UpdateData where
  name : Option JsVal
  category : Option JsVal
  price : Option JsVal
  desc : Option JsVal
  stock : Option Int
  isOutOfStock : Option Bool
  image : Option String
deriving DecidableEq

/-- A body field as it survives Mongoose's update: dropped when
`undefined`. -/
def definedField (v : JsVal) : Option JsVal :=
  if v = .jundef then none else some v

/-- Builds the update document of lines 121-137 from the form fields and
the optional uploaded file path. -/
def mkUpdateData (form : ProductForm) (file : Option String) : UpdateData :=
  let parsedStock := toNumber form.stock
  { name := definedField form.name
    category := definedField form.category
    price := definedField form.price
    desc := definedField form.desc
    stock := parsedStock
    isOutOfStock := parsedStock.map (fun n => form.isOutOfStock = .jstr "true" || n = 0)
    image := file }

/-- `findByIdAndUpdate` semantics on one document: each present key
overwrites the stored field, each absent key leaves it unchanged. -/
def applyUpdate (p : Product) (u : UpdateData) : Product :=
  { name := u.name.getD p.name
    category := u.category.getD p.category
    price := u.price.getD p.price
    desc := u.desc.getD p.desc
    stock := u.stock.getD p.stock
    isOutOfStock := u.isOutOfStock.getD p.isOutOfStock
    image := u.image.getD p.image }

/-- The `PUT /products/:id` handler (lines 117-151) acting on the stored
product `p`: build `updateData` from the form and apply it. -/
def putProductHandler (p : Product) (form : ProductForm) (file : Option String) : Product :=
  applyUpdate p (mkUpdateData form file)

/-! ### Feedback list handler (`GET /api/feedbacks`, lines 185-200) -/

/-- A stored feedback document; `createdAt` is its creation timestamp. -/
structure Feedback where
  name : String
  message : String
  createdAt : Nat
deriving DecidableEq

/-- `a` is at least as recent as `b`: the newest-first order of
`.sort(\x7bcreatedAt:-1\x7d)`. -/
def newerEq (a b : Feedback) : Prop := b.createdAt ≤ a.createdAt

instance : DecidableRel newerEq := fun a b => Nat.decLe b.createdAt a.createdAt

instance : IsTotal Feedback newerEq :=
  ⟨fun a b => le_total b.createdAt a.createdAt⟩

instance : IsTrans Feedback newerEq :=
  ⟨fun _ _ _ hab hbc => le_trans hbc hab⟩

/-- `Number(req.query.limit) || 20` of line 187: 20 when the query is
absent/unparseable (NaN) or 0, the coerced number otherwise. -/
def effectiveLimit (q : JsVal) : Int :=
  match toNumber q with
  | none => 20
  | some n => if n = 0 then 20 else n

/-- The `GET /api/feedbacks` handler (lines 185-200) over the stored
collection: sort newest-first (stable), then apply MongoDB `.limit(n)`,
which returns at most `|n|` documents. -/
def getFeedbacksHandler (store : List Feedback) (limitQ : JsVal) : List Feedback :=
  (List.insertionSort newerEq store).take (effectiveLimit limitQ).natAbs

/-! ### Auxiliary definitions for the proofs

`Date.now()` is stringified by `Nat.repr`; to reason about reference
collisions we characterize `Nat.toDigitsCore` without its fuel and prove
the decimal rendering injective. -/

/-- The decimal digit characters of `n`, most significant first. -/
def decChars (n : Nat) : List Char :=
  if _h : n < 10 then [Nat.digitChar n]
  else decChars (n / 10) ++ [Nat.digitChar (n % 10)]
decreasing_by omega

/-- The numeric value of a decimal digit character. -/
def charDigitVal (c : Char) : Nat := c.toNat - 48

/-- Horner evaluation of a digit-character list starting from `a`. -/
def decValFrom (a : Nat) (l : List Char) : Nat :=
  l.foldl (fun acc c => 10 * acc + charDigitVal c) a

/-! ### Concrete request data used as witnesses -/

/-- A checkout body whose cart is the empty array and whose amount is
negative, every other required field being a non-empty string. -/
def emptyCartBody : InitBody :=
  { name := .jstr "Ada", address := .jstr "12 Main St", phone := .jstr "0800",
    bus := .jundef, email := .jstr "ada@example.com", mode := .jundef,
    cartItems := .jarr [], amount := .jnum (-5) }

/-- A fully valid checkout body with pairwise distinct field values. -/
def auditBody : InitBody :=
  { name := .jstr "Ada", address := .jstr "12 Main St", phone := .jstr "0800",
    bus := .jstr "Stop 4", email := .jstr "ada@example.com",
    mode := .jstr "delivery", cartItems := .jarr ["shirt"],
    amount := .jnum 5000 }

/-- A checkout body whose email is absent. -/
def noEmailBody : InitBody :=
  { name := .jstr "Ada", address := .jstr "12 Main St", phone := .jstr "0800",
    bus := .jundef, email := .jundef, mode := .jundef,
    cartItems := .jarr ["shirt"], amount := .jnum 5000 }

/-- A product form with `stock = "0"` and `isOutOfStock` unset. -/
def zeroStockForm : ProductForm :=
  { name := .jstr "Tee", category := .jstr "Shirts", price := .jstr "1000",
    desc := .jundef, stock := .jstr "0", isOutOfStock := .jundef }

/-- The product stored for `zeroStockForm` with image `"img/tee.png"`. -/
def zeroStockProduct : Product :=
  { name := .jstr "Tee", category := .jstr "Shirts", price := .jstr "1000",
    desc := .jundef, image := "img/tee.png", stock := 0, isOutOfStock := true }

/-- A product form with `stock = "3"` and `isOutOfStock` unset. -/
def threeStockForm : ProductForm :=
  { name := .jstr "Tee", category := .jstr "Shirts", price := .jstr "1000",
    desc := .jundef, stock := .jstr "3", isOutOfStock := .jundef }

/-- A product form that supplies no `stock` field. -/
def noStockForm : ProductForm :=
  { name := .jstr "Tee", category := .jstr "Shirts", price := .jstr "1000",
    desc := .jundef, stock := .jundef, isOutOfStock := .jundef }

/-- An already-stored product with positive stock. -/
def baseProduct : Product :=
  { name := .jstr "Tee", category := .jstr "Shirts", price := .jstr "1000",
    desc := .jundef, image := "img/base.png", stock := 7, isOutOfStock := false }

/-- A store holding a single feedback. -/
def oneFeedback : List Feedback := [⟨"a", "hello", 5⟩]

/-- A store holding five feedbacks with increasing timestamps. -/
def fiveFeedbacks : List Feedback :=
  [⟨"a", "m1", 1⟩, ⟨"b", "m2", 2⟩, ⟨"c", "m3", 3⟩, ⟨"d", "m4", 4⟩,
    ⟨"e", "m5", 5⟩]

/-! ### Lemmas on the decimal rendering -/

theorem decChars_of_lt {n : Nat} (h : n < 10) : decChars n = [Nat.digitChar n] := by
  rw [decChars]
  simp [h]

theorem decChars_of_ge {n : Nat} (h : ¬ n < 10) :
    decChars n = decChars (n / 10) ++ [Nat.digitChar (n % 10)] := by
  rw [decChars]
  simp [h]

/-- With enough fuel, `Nat.toDigitsCore 10` pushes exactly the decimal
digits of `n` onto the accumulator. -/
theorem toDigitsCore_eq_decChars (f : Nat) :
    ∀ (n : Nat) (l : List Char), n < f →
      Nat.toDigitsCore 10 f n l = decChars n ++ l := by
  induction f with
  | zero => intro n l h; exact absurd h (Nat.not_lt_zero n)
  | succ f ih =>
    intro n l hn
    by_cases h10 : n / 10 = 0
    · have hlt : n < 10 := by omega
      simp only [Nat.toDigitsCore, h10, if_true]
      rw [decChars_of_lt hlt, Nat.mod_eq_of_lt hlt]
      rfl
    · have hge : ¬ n < 10 := by omega
      have hf : n / 10 < f := by omega
      simp only [Nat.toDigitsCore, h10, if_false]
      rw [ih (n / 10) _ hf, decChars_of_ge hge, List.append_assoc]
      rfl

theorem charDigitVal_digitChar {d : Nat} (h : d < 10) :
    charDigitVal (Nat.digitChar d) = d := by
  interval_cases d <;> rfl

theorem decValFrom_append (a : Nat) (l : List Char) (c : Char) :
    decValFrom a (l ++ [c]) = 10 * decValFrom a l + charDigitVal c := by
  simp [decValFrom, List.foldl_append]

/-- Evaluating the digits of `n` from `a` returns `a` shifted past those
digits, plus `n`. -/
theorem decValFrom_decChars (n : Nat) :
    ∀ a : Nat, decValFrom a (decChars n) = a * 10 ^ (decChars n).length + n := by
  induction n using Nat.strong_induction_on with
  | _ n ih =>
    intro a
    by_cases h : n < 10
    · rw [decChars_of_lt h]
      simp [decValFrom, charDigitVal_digitChar h]
      ring
    · have hdiv : n / 10 < n := by omega
      rw [decChars_of_ge h, decValFrom_append, ih (n / 10) hdiv a,
        charDigitVal_digitChar (Nat.mod_lt n (by omega))]
      simp [List.length_append, pow_succ]
      ring_nf
      omega

theorem decChars_inj {m n : Nat} (h : decChars m = decChars n) : m = n := by
  have hm := decValFrom_decChars m 0
  have hn := decValFrom_decChars n 0
  rw [h] at hm
  simp only [Nat.zero_mul, Nat.zero_add] at hm hn
  omega

theorem string_data_inj {s t : String} (h : s.data = t.data) : s = t := by
  cases s
  cases t
  exact congrArg String.mk h

theorem natRepr_eq_decChars (n : Nat) : Nat.repr n = (decChars n).asString := by
  show (Nat.toDigitsCore 10 (n + 1) n []).asString = _
  rw [toDigitsCore_eq_decChars (n + 1) n [] (Nat.lt_succ_self n), List.append_nil]

theorem natRepr_inj {m n : Nat} (h : Nat.repr m = Nat.repr n) : m = n := by
  apply decChars_inj
  rw [natRepr_eq_decChars, natRepr_eq_decChars] at h
  exact List.asString_inj.mp h

/-- Distinct `Date.now()` values give distinct references. -/
theorem genReference_inj {t1 t2 : Nat} (h : genReference t1 = genReference t2) :
    t1 = t2 := by
  apply natRepr_inj
  have hd := congrArg String.data h
  simp only [genReference, String.data_append] at hd
  exact string_data_inj (List.append_cancel_left hd)

/-! ### Claim C1 -/

/-- C1 counterexample: with a truthy reference, a transport failure of the
gateway request is answered with the HTTP 500 error body of the `catch`
block — not with a soft `failed` result. -/
theorem verify_transport_counterexample :
    verifyHandler (.jstr "abwy_1700000000000") .fail
        = .error 500 "Server error during verification"
    ∧ verifyHandler (.jstr "abwy_1700000000000") .fail
        ≠ .result "failed" "Payment verification failed" := by
  exact ⟨rfl, by decide⟩

/-- C1 (amended): for every call to verify with a truthy reference in which
the gateway request fails with a transport error, the caller receives an
HTTP 500 error response (`\x7berror: "Server error during verification"\x7d`),
not a soft `failed` result. -/
theorem verify_transport_error_surfaced (ref : JsVal) (h : truthy ref = true) :
    verifyHandler ref .fail = .error 500 "Server error during verification" := by
  simp [verifyHandler, h]

/-- Witness for C1 at the concrete reference `"abwy_1"`. -/
theorem verify_transport_error_surfaced_witness :
    truthy (.jstr "abwy_1") = true
    ∧ verifyHandler (.jstr "abwy_1") .fail
        = .error 500 "Server error during verification" :=
  ⟨by decide, verify_transport_error_surfaced (.jstr "abwy_1") (by decide)⟩

/-! ### Claim C2 -/

/-- C2 counterexample: a checkout body whose `cartItems` is the empty array
and whose `amount` is negative passes the truthiness validation of
line 210, so the gateway is invoked and no 400 validation error is
returned. -/
theorem initiate_validation_counterexample :
    emptyCartBody.cartItems = .jarr []
    ∧ emptyCartBody.amount = .jnum (-5)
    ∧ (initiateHandler emptyCartBody 0 "pk_test" (.ok ⟨.jbool true⟩)).gatewayCalled
        = true
    ∧ (initiateHandler emptyCartBody 0 "pk_test" (.ok ⟨.jbool true⟩)).response
        ≠ .error 400 "Missing required fields" := by
  refine ⟨rfl, rfl, rfl, ?_⟩
  decide

/-- C2 (amended): a checkout body with a required field missing (or with
`amount = 0`, which is equally falsy) is rejected with HTTP 400 and the
gateway is never invoked; an empty cart array or a strictly negative
amount, by contrast, is not rejected. -/
theorem initiate_missing_field_rejected (b : InitBody) (t : Nat) (pk : String)
    (gw : Fetch GwInitResp)
    (h : b.name = .jundef ∨ b.address = .jundef ∨ b.phone = .jundef
      ∨ b.email = .jundef ∨ b.cartItems = .jundef ∨ b.amount = .jundef
      ∨ b.amount = .jnum 0) :
    (initiateHandler b t pk gw).response = .error 400 "Missing required fields"
    ∧ (initiateHandler b t pk gw).gatewayCalled = false := by
  have hv : initValidate b = false := by
    rcases h with h | h | h | h | h | h | h <;> simp [initValidate, h, truthy]
  rw [initiateHandler, hv]
  exact ⟨rfl, rfl⟩

/-- Witness for C2 at a concrete body with no email. -/
theorem initiate_missing_field_rejected_witness :
    noEmailBody.email = .jundef
    ∧ ((initiateHandler noEmailBody 0 "pk_test" .fail).response
          = .error 400 "Missing required fields"
      ∧ (initiateHandler noEmailBody 0 "pk_test" .fail).gatewayCalled = false) :=
  ⟨rfl, initiate_missing_field_rejected noEmailBody 0 "pk_test" .fail
    (Or.inr (Or.inr (Or.inr (Or.inl rfl))))⟩

/-! ### Claim C3 -/

/-- C3 counterexample: two calls can fall into the same `Date.now()`
millisecond, in which case the generated references coincide, so it is not
true that any two calls, for any timing, give distinct references. -/
theorem reference_collision_counterexample :
    ¬ (∀ t1 t2 : Nat, genReference t1 ≠ genReference t2) :=
  fun h => h 1700000000000 1700000000000 rfl

/-- C3 (amended): two calls whose `Date.now()` timestamps differ always
generate distinct references. -/
theorem reference_distinct_timestamps (t1 t2 : Nat) (h : t1 ≠ t2) :
    genReference t1 ≠ genReference t2 :=
  fun he => h (genReference_inj he)

/-- Witness for C3 at two adjacent millisecond timestamps. -/
theorem reference_distinct_timestamps_witness :
    (1700000000000 : Nat) ≠ 1700000000001
    ∧ genReference 1700000000000 ≠ genReference 1700000000001 :=
  ⟨by decide, reference_distinct_timestamps 1700000000000 1700000000001 (by decide)⟩

/-! ### Claim C4 -/

/-- C4: for every gateway response carrying the call-level `status` field
and the transaction `data.status` field, verify answers `success` iff the
former is truthy and the latter is the literal `"success"`; every other
combination of the two fields answers `failed`. -/
theorem verify_success_iff (ref s : JsVal) (d : GwData)
    (h : truthy ref = true) :
    (verifyHandler ref (.ok ⟨s, some d⟩) = .result "success" "Payment verified"
      ↔ truthy s = true ∧ d.status = .jstr "success")
    ∧ (¬ (truthy s = true ∧ d.status = .jstr "success")
      → verifyHandler ref (.ok ⟨s, some d⟩)
          = .result "failed" "Payment verification failed") := by
  by_cases hs : truthy s = true
  · by_cases hd : d.status = .jstr "success"
    · constructor
      · simp [verifyHandler, h, hs, hd]
      · intro hn
        exact absurd ⟨hs, hd⟩ hn
    · constructor
      · simp [verifyHandler, h, hs, hd]
      · intro _
        simp [verifyHandler, h, hs, hd]
  · constructor
    · simp [verifyHandler, h, hs]
    · intro _
      simp [verifyHandler, h, hs]

/-- Witness for C4 at a truthy call status and the literal `"success"`. -/
theorem verify_success_iff_witness :
    truthy (.jstr "abwy_2") = true
    ∧ ((verifyHandler (.jstr "abwy_2")
            (.ok ⟨.jbool true, some ⟨.jstr "success"⟩⟩)
          = .result "success" "Payment verified"
        ↔ truthy (.jbool true) = true
          ∧ (GwData.mk (.jstr "success")).status = .jstr "success")
      ∧ (¬ (truthy (.jbool true) = true
            ∧ (GwData.mk (.jstr "success")).status = .jstr "success")
        → verifyHandler (.jstr "abwy_2")
              (.ok ⟨.jbool true, some ⟨.jstr "success"⟩⟩)
            = .result "failed" "Payment verification failed")) :=
  ⟨by decide, verify_success_iff (.jstr "abwy_2") (.jbool true) ⟨.jstr "success"⟩ (by decide)⟩

/-! ### Claim C5 -/

/-- C5: for every checkout body that passes validation and carries a
numeric amount `n`, the gateway is called with the built payload, whose
amount field is `n * 100` (main unit scaled to the minor currency unit). -/
theorem initiate_amount_scaled (b : InitBody) (t : Nat) (pk : String)
    (gw : Fetch GwInitResp) (n : Int)
    (hv : initValidate b = true) (ha : b.amount = .jnum n) :
    (initiateHandler b t pk gw).payload = some (buildPaystackPayload b t)
    ∧ (buildPaystackPayload b t).amount = .jnum (n * 100) := by
  constructor
  · cases gw with
    | fail => simp [initiateHandler, hv]
    | ok r =>
      by_cases hr : truthy r.status = true <;> simp [initiateHandler, hv, hr]
  · simp [buildPaystackPayload, jsMul100, ha, toNumber]

/-- Witness for C5: amount 5000 scales to payload amount 500000. -/
theorem initiate_amount_scaled_witness :
    initValidate auditBody = true
    ∧ auditBody.amount = .jnum 5000
    ∧ ((initiateHandler auditBody 0 "pk_test" .fail).payload
          = some (buildPaystackPayload auditBody 0)
      ∧ (buildPaystackPayload auditBody 0).amount = .jnum 500000) :=
  ⟨by decide, rfl, by
    simpa using initiate_amount_scaled auditBody 0 "pk_test" .fail 5000 (by decide) rfl⟩

/-! ### Claim C6 -/

/-- C6: on every stock-affecting write the stored flag is recomputed as
derived data — after a create, and after an update whose stock field
parses, the flag is true exactly when the written stock is 0 or the form
forces it with the literal `"true"`. -/
theorem outOfStock_recomputed (form form2 : ProductForm) (path : String)
    (p0 p : Product) (file : Option String) (n : Int)
    (hpost : postProductHandler form (some path) = .created p)
    (hstock : toNumber form2.stock = some n) :
    (p.isOutOfStock = true ↔ (p.stock = 0 ∨ form.isOutOfStock = .jstr "true"))
    ∧ ((putProductHandler p0 form2 file).isOutOfStock = true
      ↔ ((putProductHandler p0 form2 file).stock = 0
        ∨ form2.isOutOfStock = .jstr "true")) := by
  constructor
  · rw [postProductHandler] at hpost
    cases hpost
    simp only [Bool.or_eq_true, decide_eq_true_eq]
    tauto
  · have hflag : (putProductHandler p0 form2 file).isOutOfStock
        = (decide (form2.isOutOfStock = .jstr "true") || decide (n = 0)) := by
      simp [putProductHandler, mkUpdateData, applyUpdate, hstock]
    have hstk : (putProductHandler p0 form2 file).stock = n := by
      simp [putProductHandler, mkUpdateData, applyUpdate, hstock]
    rw [hflag, hstk]
    simp only [Bool.or_eq_true, decide_eq_true_eq]
    tauto

/-- Witness for C6: stock `"0"` with the flag unset stores the flag true;
an update to stock `"3"` with the flag unset stores the flag false. -/
theorem outOfStock_recomputed_witness :
    postProductHandler zeroStockForm (some "img/tee.png") = .created zeroStockProduct
    ∧ toNumber threeStockForm.stock = some 3
    ∧ zeroStockProduct.isOutOfStock = true
    ∧ (putProductHandler baseProduct threeStockForm none).isOutOfStock = false
    ∧ ((zeroStockProduct.isOutOfStock = true
        ↔ (zeroStockProduct.stock = 0 ∨ zeroStockForm.isOutOfStock = .jstr "true"))
      ∧ ((putProductHandler baseProduct threeStockForm none).isOutOfStock = true
        ↔ ((putProductHandler baseProduct threeStockForm none).stock = 0
          ∨ threeStockForm.isOutOfStock = .jstr "true"))) :=
  ⟨by decide, by decide, by decide, by decide,
    outOfStock_recomputed zeroStockForm threeStockForm "img/tee.png" baseProduct
      zeroStockProduct none 3 (by decide) (by decide)⟩

/-! ### Claim C7 -/

/-- C7 counterexample: for a fully valid checkout body the email value is
a checkout field but is not among the values of the metadata block (it is
carried at payload top level instead), so the metadata does not carry every
checkout field. -/
theorem metadata_missing_email_counterexample :
    initValidate auditBody = true
    ∧ auditBody.email ∈ checkoutFieldVals auditBody
    ∧ auditBody.email ∉ metadataFieldVals (buildPaystackPayload auditBody 0).metadata := by
  refine ⟨by decide, by decide, by decide⟩

/-- C7 (amended): the payload metadata block carries the customer name,
phone, address, bus stop, delivery mode and the cart contents verbatim;
the email is carried verbatim at the top level of the payload, not inside
the metadata block. -/
theorem metadata_carries_fields (b : InitBody) (t : Nat)
    (_hv : initValidate b = true) :
    (buildPaystackPayload b t).metadata.customer_name = b.name
    ∧ (buildPaystackPayload b t).metadata.phone = b.phone
    ∧ (buildPaystackPayload b t).metadata.address = b.address
    ∧ (buildPaystackPayload b t).metadata.bus = b.bus
    ∧ (buildPaystackPayload b t).metadata.mode = b.mode
    ∧ (buildPaystackPayload b t).metadata.cartItems = b.cartItems
    ∧ (buildPaystackPayload b t).email = b.email := by
  simp [buildPaystackPayload]

/-- Witness for C7 at the concrete valid body. -/
theorem metadata_carries_fields_witness :
    initValidate auditBody = true
    ∧ ((buildPaystackPayload auditBody 0).metadata.customer_name = auditBody.name
      ∧ (buildPaystackPayload auditBody 0).metadata.phone = auditBody.phone
      ∧ (buildPaystackPayload auditBody 0).metadata.address = auditBody.address
      ∧ (buildPaystackPayload auditBody 0).metadata.bus = auditBody.bus
      ∧ (buildPaystackPayload auditBody 0).metadata.mode = auditBody.mode
      ∧ (buildPaystackPayload auditBody 0).metadata.cartItems = auditBody.cartItems
      ∧ (buildPaystackPayload auditBody 0).email = auditBody.email) :=
  ⟨by decide, metadata_carries_fields auditBody 0 (by decide)⟩

/-! ### Claim C8 -/

/-- C8 counterexample: a request with `limit=0` over a store with one
feedback does not return at most 0 feedbacks — `Number("0") || 20` falls
back to the default cap of 20 and the one feedback is returned. -/
theorem feedback_limit_zero_counterexample :
    ¬ ((getFeedbacksHandler oneFeedback (.jstr "0")).length ≤ 0) := by
  decide

/-- C8 (amended): for a limit query coercing to a positive number `N` the
response holds at most `N` feedbacks in newest-first order; an absent limit
(like an unparseable or zero one) falls back to the cap 20; and limit 2
over the five stored feedbacks returns exactly the two most recent. -/
theorem feedbacks_capped_sorted (store : List Feedback) (N : Nat) (q : JsVal)
    (hq : toNumber q = some (N : Int)) (hN : 0 < N) :
    ((getFeedbacksHandler store q).length ≤ N
      ∧ List.Sorted newerEq (getFeedbacksHandler store q))
    ∧ ((getFeedbacksHandler store .jundef).length ≤ 20
      ∧ List.Sorted newerEq (getFeedbacksHandler store .jundef))
    ∧ getFeedbacksHandler fiveFeedbacks (.jstr "2")
        = [⟨"e", "m5", 5⟩, ⟨"d", "m4", 4⟩] := by
  have hlim : effectiveLimit q = (N : Int) := by
    rw [effectiveLimit, hq]
    simp only []
    rw [if_neg (by exact_mod_cast Nat.pos_iff_ne_zero.mp hN)]
  have hsorted : ∀ (l : List Feedback) (k : Nat),
      List.Sorted newerEq ((List.insertionSort newerEq l).take k) :=
    fun l k => (List.sorted_insertionSort newerEq l).sublist (List.take_sublist k _)
  refine ⟨⟨?_, ?_⟩, ⟨?_, ?_⟩, ?_⟩
  · rw [getFeedbacksHandler, hlim, Int.natAbs_ofNat]
    exact List.length_take_le N _
  · rw [getFeedbacksHandler, hlim]
    exact hsorted store _
  · rw [getFeedbacksHandler,
      show (effectiveLimit JsVal.jundef).natAbs = 20 from rfl]
    exact List.length_take_le 20 _
  · exact hsorted store _
  · decide

/-- Witness for C8 at the five-feedback store with limit 2. -/
theorem feedbacks_capped_sorted_witness :
    toNumber (.jstr "2") = some ((2 : Nat) : Int)
    ∧ 0 < 2
    ∧ (((getFeedbacksHandler fiveFeedbacks (.jstr "2")).length ≤ 2
        ∧ List.Sorted newerEq (getFeedbacksHandler fiveFeedbacks (.jstr "2")))
      ∧ ((getFeedbacksHandler fiveFeedbacks .jundef).length ≤ 20
        ∧ List.Sorted newerEq (getFeedbacksHandler fiveFeedbacks .jundef))
      ∧ getFeedbacksHandler fiveFeedbacks (.jstr "2")
          = [⟨"e", "m5", 5⟩, ⟨"d", "m4", 4⟩]) :=
  ⟨by decide, by decide,
    feedbacks_capped_sorted fiveFeedbacks 2 (.jstr "2") (by decide) (by decide)⟩

/-! ### Claims C9 and C10 -/

/-- C9: an update whose stock field is absent or unparseable leaves the
stored stock and flag unchanged, and an update without an uploaded image
leaves the stored image unchanged. -/
theorem update_frame (p0 q0 : Product) (form form2 : ProductForm)
    (file : Option String) (h : toNumber form.stock = none) :
    ((putProductHandler p0 form file).stock = p0.stock
      ∧ (putProductHandler p0 form file).isOutOfStock = p0.isOutOfStock)
    ∧ (putProductHandler q0 form2 none).image = q0.image := by
  refine ⟨⟨?_, ?_⟩, ?_⟩ <;>
    simp [putProductHandler, mkUpdateData, applyUpdate, h]

/-- Witness for C9 at a form without a stock field and no uploaded file. -/
theorem update_frame_witness :
    toNumber noStockForm.stock = none
    ∧ (((putProductHandler baseProduct noStockForm none).stock = baseProduct.stock
        ∧ (putProductHandler baseProduct noStockForm none).isOutOfStock
            = baseProduct.isOutOfStock)
      ∧ (putProductHandler baseProduct noStockForm none).image = baseProduct.image) :=
  ⟨rfl, update_frame baseProduct baseProduct noStockForm noStockForm none rfl⟩

/-- C10: a create whose stock field is absent or unparseable stores stock 0
and, consequently, the flag true, whatever the form said about the flag. -/
theorem create_default_stock (form : ProductForm) (path : String) (p : Product)
    (hpost : postProductHandler form (some path) = .created p)
    (hstock : toNumber form.stock = none) :
    p.stock = 0 ∧ p.isOutOfStock = true := by
  rw [postProductHandler] at hpost
  cases hpost
  simp [hstock]

/-- Witness for C10 at a form without a stock field: the stored product is
exactly `zeroStockProduct`. -/
theorem create_default_stock_witness :
    postProductHandler noStockForm (some "img/tee.png") = .created zeroStockProduct
    ∧ toNumber noStockForm.stock = none
    ∧ (zeroStockProduct.stock = 0 ∧ zeroStockProduct.isOutOfStock = true) :=
  ⟨by decide, rfl,
    create_default_stock noStockForm "img/tee.png" zeroStockProduct (by decide) rfl⟩

end Abby
